import Mathlib

/-!
Verification of the MISRA_Fixer analysis-report-to-prompt pipeline
(`app.py`), as a shallow embedding in Lean 4.

External collaborators (the `cppcheck` process, the filesystem, the local
Llama model, file reading) are modelled as explicit oracle parameters; the
logic of `run_cppcheck`, `build_prompt`, `predict_patch` and `process_file`
is translated directly from the source.
-/

namespace MisraFixer

/-! ## Data model -/

/-- A `location` sub-element of an `error` element in cppcheck's XML report.
Attribute lookups (`location.get('file')` etc.) may return `None`, hence
`Option String`. -/
structure LocationElem where
  file : Option String
  line : Option String
  column : Option String
deriving Repr, DecidableEq

/-- An `error` element of cppcheck's XML report: attributes `severity`, `id`,
`msg`, `verbose` (each possibly absent) and an optional nested `location`
sub-element (`error_element.find('location')` returns `None` when absent). -/
structure ErrorElem where
  severity : Option String
  id : Option String
  msg : Option String
  verbose : Option String
  location : Option LocationElem
deriving Repr, DecidableEq

/-- One issue dictionary built by `run_cppcheck` (keys `severity`, `id`,
`msg`, `verbose`, `file`, `line`, `column`; values are the possibly-absent
XML attributes). -/
structure Issue where
  severity : Option String
  id : Option String
  msg : Option String
  verbose : Option String
  file : Option String
  line : Option String
  column : Option String
deriving Repr, DecidableEq

/-- Python `str()` of an `Optional[str]` as it appears inside an f-string:
`None` renders as the text `"None"`. -/
def pyStr : Option String → String
  | some s => s
  | none => "None"

/-! ## Filesystem and external-process model -/

/-- The set of paths that currently exist on the filesystem, as a list. -/
structure FS where
  files : List String
deriving Repr, DecidableEq

/-- Creating a file at a path (`tempfile.NamedTemporaryFile(...)`). -/
def FS.create (fs : FS) (path : String) : FS :=
  ⟨path :: fs.files⟩

/-- Environment for one `run_cppcheck` call: `which` models
`shutil.which`; `srcPath`/`xmlPath` are the unique names handed out by
`tempfile.NamedTemporaryFile` for the `.c` source buffer and the `.xml`
captured report; `parseResult` models the combined outcome of running the
external `cppcheck` process and `ET.parse` on the captured report —
`.ok` carries the list of `error` elements found by
`root.findall(".//error")`, `.error` is a raised
`subprocess.CalledProcessError`/`ET.ParseError` message. -/
structure AnalyzerEnv where
  which : String → Option String
  srcPath : String
  xmlPath : String
  parseResult : Except String (List ErrorElem)

/-! ## ensure_tool (app.py lines 67-76) -/

/-- `ensure_tool(name)`: if `shutil.which(name) is None`, print an error and
`sys.exit(1)`; modelled as `Except.error 1` (process exit with code 1). -/
def ensure_tool (which : String → Option String) (name : String) :
    Except Nat Unit :=
  match which name with
  | none => Except.error 1
  | some _ => Except.ok ()

/-! ## run_cppcheck (app.py lines 78-145) -/

/-- The issue dictionary appended for an `error` element that has a
`location` sub-element (app.py lines 127-135). -/
def mkIssue (e : ErrorElem) (loc : LocationElem) : Issue :=
  { severity := e.severity
    id := e.id
    msg := e.msg
    verbose := e.verbose
    file := loc.file
    line := loc.line
    column := loc.column }

/-- The extraction loop of `run_cppcheck` (app.py lines 124-136):
`for error_element in root.findall(".//error"): location = ...find('location');
if location is not None: issues.append({...})`. -/
def extractIssues (errorElems : List ErrorElem) : List Issue :=
  errorElems.foldl
    (fun issues e =>
      match e.location with
      | some loc => issues ++ [mkIssue e loc]
      | none => issues)
    []

/-- Language/standard flags chosen from the file extension
(app.py lines 107-110). -/
def lang_args (filename : String) : List String :=
  if filename.endsWith ".c" then ["--std=c99", "--language=c", "--addon=misra"]
  else ["--std=c++17", "--language=c++", "--profile=misra-cpp-2012"]

/-- `run_cppcheck(source_code, filename)` (app.py lines 78-145).

Control flow translated from the source:
* `ensure_tool("cppcheck")` runs first and may exit the process (`.error`);
* two named temporary files are created with `delete=False` — the source
  buffer and the captured XML report — so closing them at the end of the
  `with` block does not remove them, and no `os.unlink` exists anywhere in
  the function, so both paths are still present in the returned filesystem;
* the source is written, `cppcheck --enable=all --xml` plus the language
  flags is run with stderr redirected into the XML temp file (the external
  run and `ET.parse` are the `env.parseResult` oracle);
* each `error` element with a `location` sub-element becomes an issue;
* a `subprocess.CalledProcessError` or `ET.ParseError` is caught, logged,
  and leaves `issues` at `[]`. -/
def run_cppcheck (env : AnalyzerEnv) (source_code filename : String)
    (fs : FS) : Except Nat (List Issue × FS) :=
  match ensure_tool env.which "cppcheck" with
  | Except.error code => Except.error code
  | Except.ok () =>
    let fs₁ := FS.create fs env.srcPath
    let fs₂ := FS.create fs₁ env.xmlPath
    let _written := source_code
    let _cmd := ["cppcheck", "--enable=all", "--xml"] ++ lang_args filename
      ++ [env.srcPath]
    let issues :=
      match env.parseResult with
      | Except.ok errorElems => extractIssues errorElems
      | Except.error _ => []
    Except.ok (issues, fs₂)

/-! ## build_prompt (app.py lines 147-183) -/

/-- Python's substring test `pat in s`. -/
def strIn (pat s : String) : Bool :=
  decide (pat.data <:+: s.data)

/-- One line of the issue summary (app.py line 165):
`f"- {issue['file']}:{issue['line']}:{issue['column']} {issue['severity']}: {issue['msg']} ({issue['id']})"`. -/
def issueLine (issue : Issue) : String :=
  "- " ++ pyStr issue.file ++ ":" ++ pyStr issue.line ++ ":"
    ++ pyStr issue.column ++ " " ++ pyStr issue.severity ++ ": "
    ++ pyStr issue.msg ++ " (" ++ pyStr issue.id ++ ")"

/-- The issue summary (app.py lines 164-167):
`"\n".join([f"- ..." for issue in issues])`. -/
def summaryOf (issues : List Issue) : String :=
  String.intercalate "\n" (issues.map issueLine)

/-- Rule-set selection (app.py line 169):
`"MISRA C:2012" if filename.endswith(".c") else "MISRA C++:2012"`. -/
def rule_set_of (filename : String) : String :=
  if filename.endsWith ".c" then "MISRA C:2012" else "MISRA C++:2012"

/-- Expert selection inside the template (app.py line 173):
`'C expert' if 'C:2012' in rule_set else 'C++ expert'`. -/
def expert_of (rule_set : String) : String :=
  if strIn "C:2012" rule_set then "C expert" else "C++ expert"

/-- The f-string template of app.py lines 172-182, before `.strip()`.
The characters `â` (U+00E2) and `€` (U+20AC) between `one` and `sentence`
reproduce the source file's literal text. -/
def prompt_text (source_code rule_set summary : String) : String :=
  "\n[INST] You are a " ++ expert_of rule_set ++ " specializing in "
    ++ rule_set ++ " compliance.\nHere is the source file:\n```\n"
    ++ source_code
    ++ "\n```\nThe static analyzer reported the following violations:\n"
    ++ summary
    ++ "\nProduce a unified diff patch that fixes all violations. For each change, include a oneâ€sentence rationale referencing the violated rule number.\nOnly return the diff. No extra commentary. [/INST]\n"

/-- `build_prompt(source_code, filename, issues)` (app.py lines 147-183):
returns `None` when `issues` is empty, otherwise the filled template with
`.strip()` applied. -/
def build_prompt (source_code filename : String) (issues : List Issue) :
    Option String :=
  if issues.isEmpty then none
  else
    some ((prompt_text source_code (rule_set_of filename)
      (summaryOf issues)).trim)

/-! ## predict_patch (app.py lines 185-210) -/

/-- One element of `response["choices"]`. -/
structure Choice where
  text : String
deriving Repr, DecidableEq

/-- The response object returned by the `llm(...)` call. -/
structure LlamaResponse where
  choices : List Choice
deriving Repr, DecidableEq

/-- `predict_patch(prompt)` (app.py lines 185-210). `llm_result` is the
oracle for the external model call: `.error e` models the call raising an
exception with message `e`. The function extracts
`response["choices"][0]["text"]`; any exception (from the call itself, or
the `IndexError` when `choices` is empty) is caught by the
`except Exception` clause, logged, and re-raised (`raise e`). -/
def predict_patch (llm_result : Except String LlamaResponse)
    (prompt : String) : Except String String :=
  let _prompt := prompt
  match llm_result with
  | Except.error e => Except.error e
  | Except.ok response =>
    match response.choices with
    | [] => Except.error "list index out of range"
    | choice :: _ => Except.ok choice.text

/-! ## process_file (app.py lines 212-255) -/

/-- The uploaded file object: its `.name` and the outcome of reading its
content (`open(file_obj.name).read()`; `.error e` models a raised
exception with message `e`). -/
structure FileObj where
  name : String
  readResult : Except String String

/-- All external collaborators of one `process_file` call. -/
structure Env where
  analyzer : AnalyzerEnv
  llm : Except String LlamaResponse

/-- `process_file(file_obj)` (app.py lines 212-255), threading the
filesystem state through `run_cppcheck`. The result is
`.ok ((status_message, patch), fs)` for a normal return of the
`(message, patch)` tuple, and `.error code` when `sys.exit(code)` fires
inside `run_cppcheck`'s `ensure_tool`. -/
def process_file (env : Env) (fs : FS) (file_obj : Option FileObj) :
    Except Nat ((String × Option String) × FS) :=
  match file_obj with
  | none => Except.ok (("Error: No file uploaded.", none), fs)
  | some f =>
    -- filename = file_obj.name (app.py line 229); used below as f.name
    match f.readResult with
    | Except.error e => Except.ok (("Failed to read file: " ++ e, none), fs)
    | Except.ok src =>
      if src = "" then
        Except.ok (("Error: The uploaded file appears to be empty.", none), fs)
      else
        match run_cppcheck env.analyzer src f.name fs with
        | Except.error code => Except.error code
        | Except.ok (issues, fs') =>
          match build_prompt src f.name issues with
          | none => Except.ok (("No MISRA violations found.", none), fs')
          | some prompt =>
            match predict_patch env.llm prompt with
            | Except.ok patch =>
              Except.ok (("Patch generated below:", some patch), fs')
            | Except.error e =>
              Except.ok
                (("An error occurred during local model inference: " ++ e,
                  none), fs')

/-! ## Startup sequence (app.py lines 27-65) -/

/-- The module-level startup checks (app.py lines 44-65): exit with code 1
if the local model path does not exist, then exit with code 1 if loading
the model raises; the wandb initialization (lines 27-40) only prints a
warning on failure and never exits. No check of the analyzer executable
occurs at startup. -/
def startup (modelPathExists modelLoadOk : Bool) : Except Nat Unit :=
  if !modelPathExists then Except.error 1
  else if !modelLoadOk then Except.error 1
  else Except.ok ()

/-! ## Claim-specific definitions -/

/-- The spec's example finding (§8): `{severity: style, id: misra-c2012-8.4,
msg: "no previous declaration", file: a.c, line: 1, column: 1}`. -/
def exampleIssue : Issue :=
  { severity := some "style"
    id := some "misra-c2012-8.4"
    msg := some "no previous declaration"
    verbose := some "no previous declaration"
    file := some "a.c"
    line := some "1"
    column := some "1" }

/-- The XML `error` element whose extraction yields `exampleIssue`. -/
def exampleErrorElem : ErrorElem :=
  { severity := some "style"
    id := some "misra-c2012-8.4"
    msg := some "no previous declaration"
    verbose := some "no previous declaration"
    location := some ⟨some "a.c", some "1", some "1"⟩ }

/-- Modelled from the spec: the per-finding summary-line format the spec
states, `file:line:column severity: message (rule_id)` — written from the
spec's words, to be compared with the source's `issueLine`. -/
def specFormatLine (i : Issue) : String :=
  pyStr i.file ++ ":" ++ pyStr i.line ++ ":" ++ pyStr i.column ++ " "
    ++ pyStr i.severity ++ ": " ++ pyStr i.msg ++ " (" ++ pyStr i.id ++ ")"

/-- A concrete analyzer environment: `cppcheck` installed, the two
temporary paths handed out, analyzer run and parse succeed with an empty
report. -/
def envOkEmpty : AnalyzerEnv :=
  { which := fun _ => some "/usr/bin/cppcheck"
    srcPath := "/tmp/tmpa1b2c3.c"
    xmlPath := "/tmp/tmpd4e5f6.xml"
    parseResult := Except.ok [] }

/-- A concrete analyzer environment in which `shutil.which("cppcheck")`
returns `None`. -/
def envNoCppcheck : AnalyzerEnv :=
  { which := fun _ => none
    srcPath := "/tmp/tmpa1b2c3.c"
    xmlPath := "/tmp/tmpd4e5f6.xml"
    parseResult := Except.ok [] }

/-! ## Helper lemmas -/

theorem string_data_append (a b : String) :
    (a ++ b).data = a.data ++ b.data := by
  cases a; cases b; rfl

theorem string_append_assoc (a b c : String) :
    a ++ b ++ c = a ++ (b ++ c) := by
  cases a with | mk d₁ =>
  cases b with | mk d₂ =>
  cases c with | mk d₃ =>
  show String.mk (d₁ ++ d₂ ++ d₃) = String.mk (d₁ ++ (d₂ ++ d₃))
  rw [List.append_assoc]

theorem string_ne_of_head_ne {s t : String}
    (h : s.data.head? ≠ t.data.head?) : s ≠ t :=
  fun he => h (by rw [he])

theorem failed_read_head (e : String) :
    ("Failed to read file: " ++ e).data.head? = some 'F' := by
  cases e; rfl

theorem model_err_head (e : String) :
    ("An error occurred during local model inference: " ++ e).data.head?
      = some 'A' := by
  cases e; rfl

theorem failed_read_ne_empty (e : String) :
    ("Failed to read file: " ++ e) ≠ "" :=
  string_ne_of_head_ne (by rw [failed_read_head e]; decide)

theorem failed_read_ne_patch (e : String) :
    ("Failed to read file: " ++ e) ≠ "Patch generated below:" :=
  string_ne_of_head_ne (by rw [failed_read_head e]; decide)

theorem model_err_ne_empty (e : String) :
    ("An error occurred during local model inference: " ++ e) ≠ "" :=
  string_ne_of_head_ne (by rw [model_err_head e]; decide)

theorem model_err_ne_patch (e : String) :
    ("An error occurred during local model inference: " ++ e)
      ≠ "Patch generated below:" :=
  string_ne_of_head_ne (by rw [model_err_head e]; decide)

theorem extract_go (l : List ErrorElem) (acc : List Issue) :
    List.foldl
      (fun issues e =>
        match e.location with
        | some loc => issues ++ [mkIssue e loc]
        | none => issues) acc l
    = acc ++ l.filterMap (fun e => e.location.map (mkIssue e)) := by
  induction l generalizing acc with
  | nil => simp
  | cons e t ih =>
    cases hloc : e.location with
    | none => simp [List.foldl_cons, hloc, ih]
    | some loc => simp [List.foldl_cons, hloc, ih]

theorem extractIssues_eq (l : List ErrorElem) :
    extractIssues l = l.filterMap (fun e => e.location.map (mkIssue e)) := by
  unfold extractIssues
  rw [extract_go]
  simp

theorem issueLine_eq (i : Issue) :
    issueLine i = "- " ++ specFormatLine i := by
  simp [issueLine, specFormatLine, string_append_assoc]

/-! ## Claim theorems -/

/-- C1: contrary to the claim (and to the source's own comments, which say
the temporary files are "automatically deleted"), `run_cppcheck` creates
both temporary files with `delete=False` and never unlinks them, so on a
successful call with an installed analyzer and an empty report both the
transient source buffer and the captured report still exist on the
filesystem after `analyze` returns. -/
theorem run_cppcheck_temp_files_persist :
    run_cppcheck envOkEmpty "int x;" "a.c" ⟨[]⟩
      = Except.ok ([], ⟨["/tmp/tmpd4e5f6.xml", "/tmp/tmpa1b2c3.c"]⟩)
    ∧ (∀ (w srcP xmlP src fn : String)
        (pr : Except String (List ErrorElem)) (fs : FS),
        ∃ issues,
          run_cppcheck ⟨fun _ => some w, srcP, xmlP, pr⟩ src fn fs
            = Except.ok (issues, ⟨xmlP :: srcP :: fs.files⟩)
          ∧ srcP ∈ (xmlP :: srcP :: fs.files)
          ∧ xmlP ∈ (xmlP :: srcP :: fs.files)) := by
  constructor
  · rfl
  · intro w srcP xmlP src fn pr fs
    refine ⟨_, rfl, ?_, ?_⟩ <;> simp

/-- C5 counterexample: the startup sequence accepts (it checks only the
model path and model loading, taking no analyzer information at all), while
a missing `cppcheck` executable makes an individual `run_cppcheck` call
terminate the process with exit code 1 — so the missing-analyzer check is a
per-call fatal error, not a startup precondition. -/
theorem analyzer_check_not_at_startup :
    startup true true = Except.ok ()
    ∧ run_cppcheck envNoCppcheck "int x;" "a.c" ⟨[]⟩ = Except.error 1 :=
  ⟨rfl, rfl⟩

/-- C5 amended: a missing analyzer executable is detected by `ensure_tool`
at the start of every individual `run_cppcheck` call and is fatal there
(`sys.exit(1)`, i.e. `Except.error 1`); startup performs no analyzer
check. -/
theorem run_cppcheck_exits_when_cppcheck_missing
    (env : AnalyzerEnv) (src fn : String) (fs : FS)
    (h : env.which "cppcheck" = none) :
    run_cppcheck env src fn fs = Except.error 1 := by
  unfold run_cppcheck ensure_tool
  rw [h]

/-- C5 witness: the amended statement at the concrete
no-cppcheck environment. -/
theorem run_cppcheck_exits_when_cppcheck_missing_witness :
    run_cppcheck envNoCppcheck "int x;" "a.c" ⟨["/etc/hosts"]⟩
      = Except.error 1 :=
  run_cppcheck_exits_when_cppcheck_missing envNoCppcheck "int x;" "a.c"
    ⟨["/etc/hosts"]⟩ rfl

/-- C6: a missing upload yields the "no file" error and empty content
yields the "empty file" error, each with `patch = none`; the result holds
for every analyzer and model environment (neither is invoked) and the
filesystem is untouched. -/
theorem process_file_empty_input_rejected
    (env : Env) (fs : FS) (name : String) :
    process_file env fs none
      = Except.ok (("Error: No file uploaded.", none), fs)
    ∧ process_file env fs (some ⟨name, Except.ok ""⟩)
      = Except.ok (("Error: The uploaded file appears to be empty.", none),
          fs) := by
  constructor <;> rfl

/-- C9: `build_prompt` is a pure function of
`(source_code, filename, issues)`: two calls with equal arguments render
equal prompts. -/
theorem build_prompt_deterministic
    (s₁ s₂ f₁ f₂ : String) (i₁ i₂ : List Issue)
    (hs : s₁ = s₂) (hf : f₁ = f₂) (hi : i₁ = i₂) :
    build_prompt s₁ f₁ i₁ = build_prompt s₂ f₂ i₂ := by
  subst hs hf hi
  rfl

/-- C9 witness: determinism applied at concrete equal arguments. -/
theorem build_prompt_deterministic_witness :
    build_prompt "int x;" "a.c" [exampleIssue]
      = build_prompt "int x;" "a.c" [exampleIssue] :=
  build_prompt_deterministic "int x;" "int x;" "a.c" "a.c"
    [exampleIssue] [exampleIssue] rfl rfl rfl

/-- C3: when the analyzer report parses to zero `error` elements, the
pipeline returns the fixed "no violations" status with `patch = none` for
every model oracle `llm` (so the model is never invoked), and
`build_prompt` on an empty findings list is the `none` sentinel for all
arguments. -/
theorem process_file_no_findings_short_circuit
    (aenv : AnalyzerEnv) (llm : Except String LlamaResponse) (fs : FS)
    (f : FileObj) (src w : String)
    (hw : aenv.which "cppcheck" = some w)
    (hr : f.readResult = Except.ok src)
    (hs : src ≠ "")
    (hp : aenv.parseResult = Except.ok []) :
    (∀ (s fn : String), build_prompt s fn [] = none)
    ∧ ∃ fs', process_file ⟨aenv, llm⟩ fs (some f)
        = Except.ok (("No MISRA violations found.", none), fs') := by
  refine ⟨fun s fn => rfl,
    ⟨FS.create (FS.create fs aenv.srcPath) aenv.xmlPath, ?_⟩⟩
  unfold process_file run_cppcheck ensure_tool
  simp [hr, hw, hp, hs, build_prompt, extractIssues]

/-- C3 witness: the short-circuit at a concrete request with an installed
analyzer, an empty report, and a model oracle that would fail if it were
ever invoked. -/
theorem process_file_no_findings_short_circuit_witness :
    build_prompt "int x;" "a.c" [] = none
    ∧ ∃ fs', process_file ⟨envOkEmpty, Except.error "model must not run"⟩
        ⟨[]⟩ (some ⟨"a.c", Except.ok "int x;"⟩)
        = Except.ok (("No MISRA violations found.", none), fs') := by
  have h := process_file_no_findings_short_circuit envOkEmpty
    (Except.error "model must not run") ⟨[]⟩
    ⟨"a.c", Except.ok "int x;"⟩ "int x;" "/usr/bin/cppcheck"
    rfl rfl (by decide) rfl
  exact ⟨h.1 "int x;" "a.c", h.2⟩

/-- C4: when the model invocation raises (`llm = .error e`) and the
pipeline reaches generation (analyzer installed, readable non-empty
source, at least one extracted finding), `process_file` returns the
failure status with `patch = none` as a normal return value — the fault
never escapes the pipeline. -/
theorem process_file_model_failure_contained
    (aenv : AnalyzerEnv) (fs : FS) (f : FileObj)
    (src w e : String) (elems : List ErrorElem)
    (i : Issue) (rest : List Issue)
    (hw : aenv.which "cppcheck" = some w)
    (hr : f.readResult = Except.ok src)
    (hs : src ≠ "")
    (hp : aenv.parseResult = Except.ok elems)
    (hx : extractIssues elems = i :: rest) :
    ∃ fs', process_file ⟨aenv, Except.error e⟩ fs (some f)
      = Except.ok
          (("An error occurred during local model inference: " ++ e, none),
            fs') := by
  refine ⟨FS.create (FS.create fs aenv.srcPath) aenv.xmlPath, ?_⟩
  unfold process_file run_cppcheck ensure_tool
  simp [hr, hw, hp, hs, hx, build_prompt, predict_patch]

/-- C4 witness: the contained model failure at a concrete request with one
located finding. -/
theorem process_file_model_failure_contained_witness :
    ∃ fs', process_file
        ⟨{ envOkEmpty with
            parseResult := Except.ok [exampleErrorElem] },
          Except.error "CUDA out of memory"⟩
        ⟨[]⟩ (some ⟨"a.c", Except.ok "int x;"⟩)
      = Except.ok
          (("An error occurred during local model inference: "
              ++ "CUDA out of memory", none), fs') :=
  process_file_model_failure_contained _ ⟨[]⟩
    ⟨"a.c", Except.ok "int x;"⟩ "int x;" "/usr/bin/cppcheck"
    "CUDA out of memory" [exampleErrorElem]
    exampleIssue [] rfl rfl (by decide) rfl rfl

/-- C10: when the model call succeeds, its first choice's text is returned
verbatim as the patch together with the fixed success status — no
validation or transformation; in particular an empty completion yields
`some ""` (present but empty), as the witness instantiates. -/
theorem process_file_success_passthrough
    (aenv : AnalyzerEnv) (fs : FS) (f : FileObj)
    (src w t : String) (elems : List ErrorElem)
    (i : Issue) (rest : List Issue) (more : List Choice)
    (hw : aenv.which "cppcheck" = some w)
    (hr : f.readResult = Except.ok src)
    (hs : src ≠ "")
    (hp : aenv.parseResult = Except.ok elems)
    (hx : extractIssues elems = i :: rest) :
    ∃ fs', process_file ⟨aenv, Except.ok ⟨⟨t⟩ :: more⟩⟩ fs (some f)
      = Except.ok (("Patch generated below:", some t), fs') := by
  refine ⟨FS.create (FS.create fs aenv.srcPath) aenv.xmlPath, ?_⟩
  unfold process_file run_cppcheck ensure_tool
  simp [hr, hw, hp, hs, hx, build_prompt, predict_patch]

/-- C10 witness: a successful model call returning the empty completion
yields the success status with `patch = some ""` — present but empty, not
the absent sentinel. -/
theorem process_file_success_passthrough_witness :
    ∃ fs', process_file
        ⟨{ envOkEmpty with
            parseResult := Except.ok [exampleErrorElem] },
          Except.ok ⟨[⟨""⟩]⟩⟩
        ⟨[]⟩ (some ⟨"a.c", Except.ok "int x;"⟩)
      = Except.ok (("Patch generated below:", some ""), fs') :=
  process_file_success_passthrough _ ⟨[]⟩
    ⟨"a.c", Except.ok "int x;"⟩ "int x;" "/usr/bin/cppcheck" ""
    [exampleErrorElem]
    exampleIssue [] [] rfl rfl (by decide) rfl rfl

/-- C2: every value returned by `process_file` is a well-formed
`PipelineResult`: the status message is non-empty and the patch component
is present exactly when the status is the fixed success message (so on
empty input, absence of findings, or any failure it is `none`). -/
theorem process_file_result_wellformed
    (env : Env) (fs : FS) (file_obj : Option FileObj)
    (msg : String) (patch : Option String) (fs' : FS)
    (h : process_file env fs file_obj = Except.ok ((msg, patch), fs')) :
    msg ≠ "" ∧ (patch.isSome ↔ msg = "Patch generated below:") := by
  unfold process_file at h
  split at h
  · -- no file uploaded
    simp only [Except.ok.injEq, Prod.mk.injEq] at h
    obtain ⟨⟨hm, hp2⟩, -⟩ := h
    subst hm; subst hp2
    exact ⟨by decide, by decide⟩
  · split at h
    · -- file read raised
      simp only [Except.ok.injEq, Prod.mk.injEq] at h
      obtain ⟨⟨hm, hp2⟩, -⟩ := h
      subst hm; subst hp2
      exact ⟨failed_read_ne_empty _,
        iff_of_false (by simp) (failed_read_ne_patch _)⟩
    · split at h
      · -- empty content
        simp only [Except.ok.injEq, Prod.mk.injEq] at h
        obtain ⟨⟨hm, hp2⟩, -⟩ := h
        subst hm; subst hp2
        exact ⟨by decide, by decide⟩
      · split at h
        · -- sys.exit inside run_cppcheck: no value returned
          exact Except.noConfusion h
        · split at h
          · -- no findings
            simp only [Except.ok.injEq, Prod.mk.injEq] at h
            obtain ⟨⟨hm, hp2⟩, -⟩ := h
            subst hm; subst hp2
            exact ⟨by decide, by decide⟩
          · split at h
            · -- model success
              simp only [Except.ok.injEq, Prod.mk.injEq] at h
              obtain ⟨⟨hm, hp2⟩, -⟩ := h
              subst hm; subst hp2
              exact ⟨by decide, by simp⟩
            · -- model failure
              simp only [Except.ok.injEq, Prod.mk.injEq] at h
              obtain ⟨⟨hm, hp2⟩, -⟩ := h
              subst hm; subst hp2
              exact ⟨model_err_ne_empty _,
                iff_of_false (by simp) (model_err_ne_patch _)⟩

/-- C2 witness: the invariant read off a concrete terminal path (the
"no file uploaded" rejection). -/
theorem process_file_result_wellformed_witness :
    "Error: No file uploaded." ≠ ""
    ∧ ((none : Option String).isSome
        ↔ "Error: No file uploaded." = "Patch generated below:") :=
  process_file_result_wellformed ⟨envOkEmpty, Except.error "x"⟩ ⟨[]⟩
    none "Error: No file uploaded." none ⟨[]⟩ rfl

/-- C7 counterexample: the summary line `run_cppcheck`'s findings are
rendered with is not the claimed `file:line:column severity: message
(rule_id)` — for the spec's own example finding the rendered line carries a
leading `"- "` bullet, so it differs from the claimed line. -/
theorem summary_line_format_counterexample :
    summaryOf [exampleIssue] ≠ specFormatLine exampleIssue
    ∧ specFormatLine exampleIssue
        = "a.c:1:1 style: no previous declaration (misra-c2012-8.4)"
    ∧ summaryOf [exampleIssue]
        = "- a.c:1:1 style: no previous declaration (misra-c2012-8.4)" :=
  ⟨by decide, by decide, by decide⟩

/-- C7 amended: the summary rendered into the prompt has one entry per
finding, in the findings' original order, each formatted as
`- file:line:column severity: message (rule_id)` (the spec's format
preceded by a `"- "` bullet); `build_prompt` on a non-empty findings list
embeds exactly this summary, and for the example finding the rendered line
is `- a.c:1:1 style: no previous declaration (misra-c2012-8.4)`. -/
theorem summary_line_format_amended :
    (∀ issues : List Issue,
      summaryOf issues
        = String.intercalate "\n"
            (issues.map fun i => "- " ++ specFormatLine i))
    ∧ (∀ (src fn : String) (i : Issue) (is' : List Issue),
        build_prompt src fn (i :: is')
          = some ((prompt_text src (rule_set_of fn)
              (summaryOf (i :: is'))).trim))
    ∧ issueLine exampleIssue
        = "- a.c:1:1 style: no previous declaration (misra-c2012-8.4)" := by
  refine ⟨?_, ?_, by decide⟩
  · intro issues
    unfold summaryOf
    rw [show issueLine = (fun i => "- " ++ specFormatLine i)
      from funext issueLine_eq]
  · intro src fn i is'
    rfl

/-- C8: the extraction loop keeps exactly the `error` elements that carry
a `location` sub-element, turning each into an issue via `mkIssue` and
preserving order (it equals a `filterMap`); its length equals the number
of located elements; and with `cppcheck` installed and a parsed report,
`run_cppcheck` returns exactly these extracted issues. -/
theorem analyze_keeps_only_located_findings :
    (∀ elems : List ErrorElem,
      extractIssues elems
        = elems.filterMap (fun e => e.location.map (mkIssue e))
      ∧ (extractIssues elems).length
          = (elems.filter (fun e => e.location.isSome)).length)
    ∧ ∀ (w srcP xmlP src fn : String) (elems : List ErrorElem) (fs : FS),
        run_cppcheck ⟨fun _ => some w, srcP, xmlP, Except.ok elems⟩
          src fn fs
        = Except.ok (extractIssues elems,
            FS.create (FS.create fs srcP) xmlP) := by
  constructor
  · intro elems
    refine ⟨extractIssues_eq elems, ?_⟩
    rw [extractIssues_eq]
    induction elems with
    | nil => rfl
    | cons e t ih =>
      cases hloc : e.location with
      | none => simp [List.filterMap_cons, List.filter_cons, hloc, ih]
      | some loc => simp [List.filterMap_cons, List.filter_cons, hloc, ih]
  · intro w srcP xmlP src fn elems fs
    rfl

end MisraFixer
